import Mathlib

/-!
Verification of the generic device-communication layer of an Alpaca
client library (source: alpaca/device.py).

The embedding models:
  - the typed error taxonomy raised by the response checker,
  - the response checker itself (source method check_error),
  - base-URL construction (source Device init),
  - the parameter dictionary built by the get and put helpers,
    including Python dict update semantics,
  - a sequential model of one get or put call: request built,
    lock acquired, transport runs (returning a response or raising),
    counter incremented on return, lock released in a finally block,
    response checked,
  - an interleaving model of several threads each running one call,
    used to analyse the transaction-id uniqueness claim.

Machine integers are modelled as Int (error codes, as Python ints) and
Nat (HTTP status, counters); Python str.split and str.strip are
modelled by structural recursion over the character list, with the
separator and whitespace sets of the source calls.
-/

namespace Alpaca

/-- Typed failure taxonomy, mirroring the exception classes imported
from alpaca.exceptions and raised by the response checker. Each server
error kind carries the numeric code and the message verbatim; the
request-level kind carries the HTTP status and a message built from
the body text and the URL. -/
inductive AlpacaError where
  | NotImplementedException (n : Int) (m : String)
  | InvalidValueException (n : Int) (m : String)
  | ValueNotSetException (n : Int) (m : String)
  | NotConnectedException (n : Int) (m : String)
  | ParkedException (n : Int) (m : String)
  | SlavedException (n : Int) (m : String)
  | InvalidOperationException (n : Int) (m : String)
  | ActionNotImplementedException (n : Int) (m : String)
  | DriverException (n : Int) (m : String)
  | UnknownAscomException (n : Int) (m : String)
  | AlpacaRequestException (status : Nat) (m : String)
deriving DecidableEq, Repr

/-- Decoded HTTP response, carrying the fields the source reads:
status code, the JSON envelope fields Value, ErrorNumber and
ErrorMessage, and the raw body text and URL used by the
request-failure message. -/
structure Response where
  status_code : Nat
  value : String
  errorNumber : Int
  errorMessage : String
  text : String
  url : String
deriving DecidableEq, Repr

/-- Classification of the envelope error number and message, as done
by the body of the source response checker once the status is in
range: zero means success (nothing raised, none here); the eight
specific codes, then the driver range, then the catch-all unknown
kind. -/
def classify (n : Int) (m : String) : Option AlpacaError :=
  if n ≠ 0 then
    if n = 0x0400 then some (.NotImplementedException n m)
    else if n = 0x0401 then some (.InvalidValueException n m)
    else if n = 0x0402 then some (.ValueNotSetException n m)
    else if n = 0x0407 then some (.NotConnectedException n m)
    else if n = 0x0408 then some (.ParkedException n m)
    else if n = 0x0409 then some (.SlavedException n m)
    else if n = 0x040B then some (.InvalidOperationException n m)
    else if n = 0x040C then some (.ActionNotImplementedException n m)
    else if 0x500 ≤ n ∧ n ≤ 0xFFF then some (.DriverException n m)
    else some (.UnknownAscomException n m)
  else none

/-- Embedding of the source response checker: if the status code is in
range 200 to 203 the envelope error number is classified; any other
status yields the request-level failure whose message appends the URL
to the body text. -/
def check_error (r : Response) : Option AlpacaError :=
  if 200 ≤ r.status_code ∧ r.status_code < 204 then
    classify r.errorNumber r.errorMessage
  else
    some (.AlpacaRequestException r.status_code (r.text ++ " (URL " ++ r.url ++ ")"))

/-- Fixed protocol version, from the module constant. -/
def API_VERSION : Nat := 1

/-- Base-URL format used in Device init. -/
def base_url (protocol address : String) (api_version : Nat)
    (device_type : String) (device_number : Nat) : String :=
  protocol ++ "://" ++ address ++ "/api/v" ++ toString api_version ++ "/"
    ++ device_type ++ "/" ++ toString device_number

/-- Immutable per-device data set up by Device init. -/
structure Device where
  address : String
  device_type : String
  device_number : Nat
  baseUrl : String
deriving DecidableEq, Repr

/-- Embedding of Device init: stores the endpoint fields and derives
the base URL with the fixed API version. -/
def Device.init (address device_type : String) (device_number : Nat)
    (protocol : String) : Device :=
  { address := address
    device_type := device_type
    device_number := device_number
    baseUrl := base_url protocol address API_VERSION device_type device_number }

/-- Parameter mapping sent with a request, as an insertion-ordered
association list, mirroring a Python dict of string values. -/
abbrev Params := List (String × String)

/-- Membership test for a key, mirroring Python dict containment. -/
def keyIn (ps : Params) (k : String) : Bool :=
  ps.any (fun p => p.1 = k)

/-- Single-key dict assignment: an existing key keeps its position and
gets the new value; a fresh key is appended. -/
def dictInsert (ps : Params) (k v : String) : Params :=
  if keyIn ps k then ps.map (fun p => if p.1 = k then (k, v) else p)
  else ps ++ [(k, v)]

/-- Python dict update: fold the new pairs into the base mapping, each
overwriting an existing key or appending a fresh one. -/
def dictUpdate (ps upd : Params) : Params :=
  upd.foldl (fun acc p => dictInsert acc p.1 p.2) ps

/-- Parameter dictionary built by the get and put helpers: the two
identity pairs first (each value formatted as a decimal string), then
dict update with the caller-supplied data. -/
def mkPdata (ctid cid : Nat) (data : Params) : Params :=
  dictUpdate
    [("ClientTransactionID", toString ctid), ("ClientID", toString cid)]
    data

/-- Process-wide shared state touched by one call: the transaction
counter, the fixed client id, and whether the counter lock is held. -/
structure SeqState where
  client_trans_id : Nat
  client_id : Nat
  lockHeld : Bool
deriving DecidableEq, Repr

/-- Behaviour of the external transport for one call: it either
returns a response or raises. -/
inductive TransportResult where
  | ok (r : Response)
  | raises (e : String)
deriving DecidableEq, Repr

/-- Outgoing request as observed on the wire: target URL and the
parameter mapping (query parameters for get, form body for put). -/
structure Request where
  url : String
  params : Params
deriving DecidableEq, Repr

/-- Result of one get or put call: the unwrapped response on success, a
classified failure raised by the response checker, or the propagated
transport exception. -/
inductive CallResult where
  | value (r : Response)
  | alpacaError (e : AlpacaError)
  | transportRaise (e : String)
deriving DecidableEq, Repr

/-- Request built by a get or put call: URL is baseUrl slash attribute,
parameters are the identity pairs updated with the caller data. The
counter is read while building the dictionary, before the lock is
taken. -/
def sentRequest (d : Device) (attr : String) (s : SeqState)
    (data : Params) : Request :=
  { url := d.baseUrl ++ "/" ++ attr
    params := mkPdata s.client_trans_id s.client_id data }

/-- Shared state after one call. The lock is acquired inside the try
block; if the transport returns, the counter is incremented by one;
in both cases the finally block releases the lock. The client id is
never written. -/
def callState (s : SeqState) (t : TransportResult) : SeqState :=
  match t with
  | .raises _ =>
      { client_trans_id := s.client_trans_id
        client_id := s.client_id
        lockHeld := false }
  | .ok _ =>
      { client_trans_id := s.client_trans_id + 1
        client_id := s.client_id
        lockHeld := false }

/-- Result of one call: a transport raise propagates; a returned
response is passed to the response checker, whose failure propagates,
otherwise the response is the call value. -/
def callOutcome (t : TransportResult) : CallResult :=
  match t with
  | .raises e => .transportRaise e
  | .ok r =>
      match check_error r with
      | some e => .alpacaError e
      | none => .value r

/-- Embedding of the source get helper: builds the request (reading
the shared counter), runs the transport under the lock, increments on
return, releases in finally, then checks the response. The triple
returned is the sent request, the call result, and the final shared
state. -/
def Device.get (d : Device) (attr : String) (data : Params)
    (s : SeqState) (t : TransportResult) :
    Request × CallResult × SeqState :=
  (sentRequest d attr s data, callOutcome t, callState s t)

/-- Embedding of the source put helper, which differs from get only in
verb and parameter encoding; request construction, locking, counter
increment and response checking are identical. -/
def Device.put (d : Device) (attr : String) (data : Params)
    (s : SeqState) (t : TransportResult) :
    Request × CallResult × SeqState :=
  (sentRequest d attr s data, callOutcome t, callState s t)

/-- Embedding of the Action method: a put to the fixed action
attribute with form fields Action (the action name) and Parameters
(the encoded parameter list). -/
def Device.Action (d : Device) (ActionName Parameters : String)
    (s : SeqState) (t : TransportResult) :
    Request × CallResult × SeqState :=
  Device.put d "action" [("Action", ActionName), ("Parameters", Parameters)] s t

/-- Extraction of the Value field done by Action on a successful call
(source: indexing the returned envelope with the Value key). -/
def actionValue : CallResult → Option String
  | .value r => some r.value
  | _ => none

/-- Python default whitespace test used by str.strip. -/
def isPySpace (c : Char) : Bool :=
  c = ' ' || c = '\t' || c = '\n' || c = '\r' || c = '\x0B' || c = '\x0C'

/-- Helper for comma splitting: walks the characters, cutting at every
comma and keeping empty pieces, like Python str.split with an explicit
separator. -/
def splitCommaAux : List Char → List Char → List String
  | [], acc => [String.mk acc.reverse]
  | c :: rest, acc =>
      if c = ',' then String.mk acc.reverse :: splitCommaAux rest []
      else splitCommaAux rest (c :: acc)

/-- Model of Python str.split on a comma separator. -/
def splitComma (s : String) : List String :=
  splitCommaAux s.toList []

/-- Model of Python str.strip with no argument: drop default
whitespace from both ends. -/
def pyStrip (s : String) : String :=
  String.mk (((s.toList.dropWhile isPySpace).reverse.dropWhile isPySpace).reverse)

/-- Embedding of the DriverInfo property: a get of the driverinfo
attribute, whose string value is split on commas and each piece
stripped; failures propagate as none. -/
def Device.DriverInfo (d : Device) (s : SeqState) (t : TransportResult) :
    Option (List String) :=
  match (Device.get d "driverinfo" [] s t).2.1 with
  | .value r => some ((splitComma r.value).map pyStrip)
  | _ => none

/-- Operations one thread performs during a call, in program order:
read the shared counter into the parameter dictionary (outside the
lock), acquire the lock, send the request carrying the id it read,
increment the shared counter, release the lock. -/
inductive Op where
  | read
  | acquire
  | send
  | inc
  | release
deriving DecidableEq, Repr

/-- State of the interleaving model: the shared counter, the lock
holder, each thread's program counter and the id it read, and the ids
carried by the requests sent so far, in send order. -/
structure ConcState where
  client_trans_id : Nat
  lockHolder : Option Nat
  pc : Nat → Nat
  localId : Nat → Nat
  sent : List Nat

/-- One atomic step of thread t. Program order is enforced by the
program counter; the lock gates every operation between acquire and
release; the counter read is not gated, matching the source where the
parameter dictionary is built before the lock is acquired. -/
def threadStep (st : ConcState) (t : Nat) (op : Op) : Option ConcState :=
  match op with
  | .read =>
      if st.pc t = 0 then
        some { st with localId := Function.update st.localId t st.client_trans_id
                       pc := Function.update st.pc t 1 }
      else none
  | .acquire =>
      if st.pc t = 1 ∧ st.lockHolder = none then
        some { st with lockHolder := some t
                       pc := Function.update st.pc t 2 }
      else none
  | .send =>
      if st.pc t = 2 ∧ st.lockHolder = some t then
        some { st with sent := st.sent ++ [st.localId t]
                       pc := Function.update st.pc t 3 }
      else none
  | .inc =>
      if st.pc t = 3 ∧ st.lockHolder = some t then
        some { st with client_trans_id := st.client_trans_id + 1
                       pc := Function.update st.pc t 4 }
      else none
  | .release =>
      if st.pc t = 4 ∧ st.lockHolder = some t then
        some { st with lockHolder := none
                       pc := Function.update st.pc t 5 }
      else none

/-- Run a schedule of thread steps from a state; an unenabled step
aborts the run. -/
def runSched (st : ConcState) : List (Nat × Op) → Option ConcState
  | [] => some st
  | s :: rest =>
      match threadStep st s.1 s.2 with
      | some st2 => runSched st2 rest
      | none => none

/-- Initial shared state of a fresh process: counter starts at 1, lock
free, every thread about to build its request. -/
def initConc : ConcState :=
  { client_trans_id := 1
    lockHolder := none
    pc := fun _ => 0
    localId := fun _ => 0
    sent := [] }

end Alpaca

namespace Alpaca

/-- Concrete device used by counterexamples and witnesses: the
telescope number 0 of a local server over http. -/
def devConc : Device := Device.init "localhost:11111" "telescope" 0 "http"

/-- Concrete successful driverinfo response whose value is a
comma-separated driver description. -/
def driverResp : Response :=
  { status_code := 200, value := "Acme Driver, v2.1, Copyright 2024",
    errorNumber := 0, errorMessage := "", text := "", url := "" }

/-- Concrete successful action response with value 42. -/
def okResp : Response :=
  { status_code := 200, value := "42", errorNumber := 0, errorMessage := "",
    text := "", url := "" }

/-- Concrete server failure: status 500 with a plain body, matching
the transport-error example of the specification. -/
def respInternalError : Response :=
  { status_code := 500, value := "", errorNumber := 0, errorMessage := "",
    text := "internal error",
    url := "http://localhost:11111/api/v1/telescope/0/connected" }

/-- Recogniser for the request-level transport failure kind. -/
def isTransportError : Option AlpacaError → Bool
  | some (.AlpacaRequestException _ _) => true
  | _ => false

/-- Schedule of two threads in which both build their parameter
dictionaries, reading the shared counter, before either takes the
lock, and then run their locked sections one after the other. Every
acquire, send, increment and release in it respects the lock. -/
def badSched : List (Nat × Op) :=
  [(0, .read), (1, .read),
   (0, .acquire), (0, .send), (0, .inc), (0, .release),
   (1, .acquire), (1, .send), (1, .inc), (1, .release)]

/-- Key membership distributes over appended parameter lists. -/
theorem keyIn_append (ps qs : Params) (k : String) :
    keyIn (ps ++ qs) k = (keyIn ps k || keyIn qs k) := by
  simp [keyIn, List.any_append]

/-- Assigning a fresh key appends the pair. -/
theorem dictInsert_fresh (ps : Params) (k v : String)
    (h : keyIn ps k = false) : dictInsert ps k v = ps ++ [(k, v)] := by
  simp [dictInsert, h]

/-- Updating with pairs whose keys are fresh for the base mapping and
mutually distinct appends them in order. -/
theorem dictUpdate_fresh (upd : Params) : ∀ ps : Params,
    (∀ p ∈ upd, keyIn ps p.1 = false) → (upd.map Prod.fst).Nodup →
    dictUpdate ps upd = ps ++ upd := by
  induction upd with
  | nil => intro ps _ _; simp [dictUpdate]
  | cons hd tl ih =>
      intro ps hfresh hnodup
      obtain ⟨k, v⟩ := hd
      have hk : keyIn ps k = false := hfresh (k, v) (by simp)
      have hstep : dictUpdate ps ((k, v) :: tl) = dictUpdate (dictInsert ps k v) tl := rfl
      rw [hstep, dictInsert_fresh ps k v hk]
      simp only [List.map_cons, List.nodup_cons, List.mem_map] at hnodup
      have hfresh2 : ∀ p ∈ tl, keyIn (ps ++ [(k, v)]) p.1 = false := by
        intro p hp
        have h1 : keyIn ps p.1 = false := hfresh p (List.mem_cons_of_mem _ hp)
        have h2 : ¬(k = p.1) := by
          intro he
          exact hnodup.1 ⟨p, hp, he.symm⟩
        rw [keyIn_append, h1]
        simp [keyIn, h2]
      rw [ih (ps ++ [(k, v)]) hfresh2 hnodup.2]
      simp

/-- Classification never produces the request-level transport kind. -/
theorem classify_ne_request (n : Int) (m : String) (st : Nat) (msg : String) :
    classify n m ≠ some (.AlpacaRequestException st msg) := by
  unfold classify
  repeat' split
  all_goals intro hc
  all_goals first
    | exact Option.noConfusion hc
    | exact AlpacaError.noConfusion (Option.some.inj hc)

/-- C1: the transaction-id uniqueness claim fails on the code. At the
legal interleaving in which both threads build their request
dictionaries (reading the shared counter) before either acquires the
lock, the two outgoing requests both carry transaction id 1 while the
shared counter ends at 3: a duplicate id and a skipped id, so the
read-use-increment is not indivisible. Every lock operation in the
schedule respects the lock; the duplication comes solely from the
counter read the source performs before acquiring the lock. -/
theorem c1_duplicate_transaction_ids :
    (runSched initConc badSched).map ConcState.sent = some [1, 1]
    ∧ (runSched initConc badSched).map ConcState.client_trans_id = some 3
    ∧ ¬ ([1, 1] : List Nat).Nodup :=
  ⟨rfl, rfl, by decide⟩

/-- C2 counterexample: the classifier maps code 0x0999 to the
driver-defined kind, not to the unknown-protocol kind the claim
names, because 0x0999 lies inside the 0x0500 to 0x0FFF driver
range. -/
theorem c2_counterexample :
    classify 0x0999 "boom" = some (.DriverException 0x0999 "boom")
    ∧ classify 0x0999 "boom" ≠ some (.UnknownAscomException 0x0999 "boom") :=
  ⟨rfl, by decide⟩

/-- C2 amended: classifying code 0x0999 yields the driver-defined
error kind, carrying the code 0x0999 and the message verbatim. -/
theorem c2_driver_defined (m : String) :
    classify 0x0999 m = some (.DriverException 0x0999 m) := rfl

/-- C3: over every non-negative code the classifier matches the
table: 0 is success (nothing raised), the eight specific codes map to
their kinds, the 0x0500 to 0x0FFF range maps to the driver-defined
kind, and every other non-zero code maps to the unknown kind; every
kind carries the original code and message verbatim. -/
theorem c3_error_classification (n : Int) (m : String) (hn : 0 ≤ n) :
    (n = 0 → classify n m = none)
    ∧ (n = 0x0400 → classify n m = some (.NotImplementedException n m))
    ∧ (n = 0x0401 → classify n m = some (.InvalidValueException n m))
    ∧ (n = 0x0402 → classify n m = some (.ValueNotSetException n m))
    ∧ (n = 0x0407 → classify n m = some (.NotConnectedException n m))
    ∧ (n = 0x0408 → classify n m = some (.ParkedException n m))
    ∧ (n = 0x0409 → classify n m = some (.SlavedException n m))
    ∧ (n = 0x040B → classify n m = some (.InvalidOperationException n m))
    ∧ (n = 0x040C → classify n m = some (.ActionNotImplementedException n m))
    ∧ (0x0500 ≤ n → n ≤ 0x0FFF → classify n m = some (.DriverException n m))
    ∧ (n ≠ 0 → n ≠ 0x0400 → n ≠ 0x0401 → n ≠ 0x0402 → n ≠ 0x0407 → n ≠ 0x0408 →
        n ≠ 0x0409 → n ≠ 0x040B → n ≠ 0x040C → ¬(0x0500 ≤ n ∧ n ≤ 0x0FFF) →
        classify n m = some (.UnknownAscomException n m)) := by
  refine ⟨?_, ?_, ?_, ?_, ?_, ?_, ?_, ?_, ?_, ?_, ?_⟩
  · intro h; subst h; rfl
  · intro h; subst h; rfl
  · intro h; subst h; rfl
  · intro h; subst h; rfl
  · intro h; subst h; rfl
  · intro h; subst h; rfl
  · intro h; subst h; rfl
  · intro h; subst h; rfl
  · intro h; subst h; rfl
  · intro h1 h2
    unfold classify
    repeat' split
    all_goals first | omega | rfl
  · intro h1 h2 h3 h4 h5 h6 h7 h8 h9 h10
    unfold classify
    repeat' split
    all_goals first | omega | rfl

/-- C3 witness: the driver-range case evaluated at code 0x0500. -/
theorem c3_error_classification_witness :
    classify 0x0500 "m" = some (.DriverException 0x0500 "m") :=
  (c3_error_classification 0x0500 "m" (by decide)).2.2.2.2.2.2.2.2.2.1
    (by decide) (by decide)

end Alpaca

namespace Alpaca

/-- C4 counterexample: a caller-supplied ClientID pair displaces the
reserved identity value in the sent parameters of both get and put,
because the source dict update overwrites existing keys; the identity
value for client id 5 would be the string 5. -/
theorem c4_counterexample :
    List.lookup "ClientID"
      (Device.get devConc "connected" [("ClientID", "666")]
        ⟨1, 5, false⟩ (.raises "boom")).1.params = some "666"
    ∧ List.lookup "ClientID"
      (Device.put devConc "connected" [("ClientID", "666")]
        ⟨1, 5, false⟩ (.raises "boom")).1.params = some "666"
    ∧ ("666" : String) ≠ "5" :=
  ⟨rfl, rfl, by decide⟩

/-- C4 amended: for every attribute and caller mapping whose keys are
mutually distinct and avoid the two reserved keys (true of every call
site in the source), the parameter set sent by get and put is exactly
the two reserved identity pairs, freshly drawn from the shared state,
followed by the caller pairs; a caller-supplied reserved key would
instead override the reserved value. -/
theorem c4_params_union (d : Device) (a : String) (data : Params)
    (s : SeqState) (t : TransportResult)
    (hcid : ∀ p ∈ data, p.1 ≠ "ClientID")
    (hctid : ∀ p ∈ data, p.1 ≠ "ClientTransactionID")
    (hnodup : (data.map Prod.fst).Nodup) :
    (Device.get d a data s t).1.params
      = ("ClientTransactionID", toString s.client_trans_id)
        :: ("ClientID", toString s.client_id) :: data
    ∧ (Device.put d a data s t).1.params
      = ("ClientTransactionID", toString s.client_trans_id)
        :: ("ClientID", toString s.client_id) :: data := by
  have hfresh : ∀ p ∈ data,
      keyIn [("ClientTransactionID", toString s.client_trans_id),
             ("ClientID", toString s.client_id)] p.1 = false := by
    intro p hp
    simp only [keyIn, List.any_cons, List.any_nil, Bool.or_false]
    rw [Bool.or_eq_false_iff]
    constructor <;> rw [decide_eq_false_iff_not]
    · exact fun he => hctid p hp he.symm
    · exact fun he => hcid p hp he.symm
  have h := dictUpdate_fresh data _ hfresh hnodup
  constructor
  · show mkPdata s.client_trans_id s.client_id data = _
    unfold mkPdata
    rw [h]
    rfl
  · show mkPdata s.client_trans_id s.client_id data = _
    unfold mkPdata
    rw [h]
    rfl

/-- C4 witness: a single non-reserved caller pair at concrete
identity state. -/
theorem c4_params_union_witness :
    (Device.get devConc "connected" [("Connected", "True")]
      ⟨1, 5, false⟩ (.raises "boom")).1.params
      = [("ClientTransactionID", "1"), ("ClientID", "5"), ("Connected", "True")]
    ∧ (Device.put devConc "connected" [("Connected", "True")]
      ⟨1, 5, false⟩ (.raises "boom")).1.params
      = [("ClientTransactionID", "1"), ("ClientID", "5"), ("Connected", "True")] :=
  c4_params_union devConc "connected" [("Connected", "True")]
    ⟨1, 5, false⟩ (.raises "boom") (by decide) (by decide) (by decide)

/-- C5 counterexample: the code raises the transport failure at
status 204 and at status 250, both of which the claim exempts (204
explicitly, 250 as part of the 2xx range). -/
theorem c5_counterexample :
    isTransportError (check_error
      { status_code := 204, value := "", errorNumber := 0, errorMessage := "",
        text := "no content", url := "u" }) = true
    ∧ isTransportError (check_error
      { status_code := 250, value := "", errorNumber := 0, errorMessage := "",
        text := "odd", url := "u" }) = true := by
  decide

/-- C5 amended: a call fails with the transport error, carrying the
status code and a message built from the body text and the requested
URL, exactly when the status is outside 200 to 203; for a status in
200 to 203 the body is classified instead and the transport failure
kind is never produced. -/
theorem c5_transport_status (r : Response) :
    (¬(200 ≤ r.status_code ∧ r.status_code < 204) →
      check_error r = some (.AlpacaRequestException r.status_code
        (r.text ++ " (URL " ++ r.url ++ ")")))
    ∧ ((200 ≤ r.status_code ∧ r.status_code < 204) →
      ∀ (st : Nat) (msg : String),
        check_error r ≠ some (.AlpacaRequestException st msg)) := by
  constructor
  · intro h
    unfold check_error
    rw [if_neg h]
  · intro h st msg
    unfold check_error
    rw [if_pos h]
    exact classify_ne_request r.errorNumber r.errorMessage st msg

/-- C5 witness: status 500 with body internal error yields the
transport failure carrying status, body and URL, matching the
specification example. -/
theorem c5_transport_status_witness :
    check_error respInternalError
      = some (.AlpacaRequestException 500
          "internal error (URL http://localhost:11111/api/v1/telescope/0/connected)") :=
  (c5_transport_status respInternalError).1 (by decide)

/-- C6 counterexample: the action request carries no field named
ActionName; the field holding the action name is named Action. -/
theorem c6_counterexample :
    List.lookup "ActionName"
      (Device.Action devConc "MoveFocuser" "[]"
        ⟨1, 5, false⟩ (.raises "boom")).1.params = none
    ∧ List.lookup "Action"
      (Device.Action devConc "MoveFocuser" "[]"
        ⟨1, 5, false⟩ (.raises "boom")).1.params = some "MoveFocuser" :=
  ⟨rfl, rfl⟩

/-- C6 amended: for every action name and parameter encoding, Action
issues a put to the fixed action attribute whose parameter map holds
the caller arguments under the fields Action and Parameters, and on a
response with no error it returns the envelope Value field as a
string. -/
theorem c6_action_request (d : Device) (name ps : String) (s : SeqState)
    (r : Response) :
    (Device.Action d name ps s (.ok r)).1.url = d.baseUrl ++ "/" ++ "action"
    ∧ List.lookup "Action" (Device.Action d name ps s (.ok r)).1.params = some name
    ∧ List.lookup "Parameters" (Device.Action d name ps s (.ok r)).1.params = some ps
    ∧ (check_error r = none →
        actionValue (Device.Action d name ps s (.ok r)).2.1 = some r.value) := by
  refine ⟨rfl, rfl, rfl, fun h => ?_⟩
  simp [Device.Action, Device.put, callOutcome, h, actionValue]

/-- C6 witness: a concrete action call on a successful response. -/
theorem c6_action_request_witness :
    actionValue (Device.Action devConc "FocusHome" "[]"
      ⟨1, 5, false⟩ (.ok okResp)).2.1 = some "42" :=
  (c6_action_request devConc "FocusHome" "[]" ⟨1, 5, false⟩ okResp).2.2.2
    (by decide)

/-- C7 counterexample: a call whose transport request itself raises
leaves the shared counter unchanged, so not every call increments it
exactly once. -/
theorem c7_counterexample :
    (Device.get devConc "connected" [] ⟨1, 5, false⟩
      (.raises "timeout")).2.2.client_trans_id = 1
    ∧ (Device.get devConc "connected" [] ⟨1, 5, false⟩
      (.raises "timeout")).2.2.client_trans_id ≠ 2 :=
  ⟨rfl, by decide⟩

/-- C7 amended: every get or put call in which the transport returns a
response, including one that ends in a classified server error or a
transport-status error, increments the shared counter by exactly one
and never changes the client id; a call in which the transport itself
raises leaves the counter unchanged and also never changes the client
id. -/
theorem c7_counter_increment (d : Device) (a : String) (data : Params)
    (s : SeqState) :
    (∀ r : Response,
      (Device.get d a data s (.ok r)).2.2.client_trans_id = s.client_trans_id + 1
      ∧ (Device.get d a data s (.ok r)).2.2.client_id = s.client_id
      ∧ (Device.put d a data s (.ok r)).2.2.client_trans_id = s.client_trans_id + 1
      ∧ (Device.put d a data s (.ok r)).2.2.client_id = s.client_id)
    ∧ (∀ e : String,
      (Device.get d a data s (.raises e)).2.2.client_trans_id = s.client_trans_id
      ∧ (Device.get d a data s (.raises e)).2.2.client_id = s.client_id
      ∧ (Device.put d a data s (.raises e)).2.2.client_trans_id = s.client_trans_id
      ∧ (Device.put d a data s (.raises e)).2.2.client_id = s.client_id) :=
  ⟨fun _ => ⟨rfl, rfl, rfl, rfl⟩, fun _ => ⟨rfl, rfl, rfl, rfl⟩⟩

/-- C8: the request address follows the documented pattern for every
endpoint and attribute, and the concrete telescope example builds the
documented address through Device init and get. -/
theorem c8_address_construction :
    (∀ (protocol address : String) (version : Nat) (category : String)
        (index : Nat) (a : String),
      base_url protocol address version category index ++ "/" ++ a
        = protocol ++ "://" ++ address ++ "/api/v" ++ toString version ++ "/"
          ++ category ++ "/" ++ toString index ++ "/" ++ a)
    ∧ ∀ (s : SeqState) (t : TransportResult),
      (Device.get (Device.init "localhost:11111" "telescope" 0 "http")
        "connected" [] s t).1.url
        = "http://localhost:11111/api/v1/telescope/0/connected" :=
  ⟨fun _ _ _ _ _ _ => rfl, fun _ _ => rfl⟩

/-- C9: DriverInfo returns the list obtained by splitting the returned
string on commas and stripping each piece, and the concrete example
splits into its three trimmed elements. -/
theorem c9_driverinfo_parse :
    (∀ (d : Device) (s : SeqState) (r : Response), check_error r = none →
      Device.DriverInfo d s (.ok r) = some ((splitComma r.value).map pyStrip))
    ∧ Device.DriverInfo devConc ⟨1, 5, false⟩ (.ok driverResp)
        = some ["Acme Driver", "v2.1", "Copyright 2024"] := by
  constructor
  · intro d s r h
    simp [Device.DriverInfo, Device.get, callOutcome, h]
  · rfl

/-- C9 witness: the parsing branch applied to the concrete driverinfo
response. -/
theorem c9_driverinfo_parse_witness :
    Device.DriverInfo devConc ⟨1, 5, false⟩ (.ok driverResp)
      = some ((splitComma driverResp.value).map pyStrip) :=
  c9_driverinfo_parse.1 devConc ⟨1, 5, false⟩ driverResp (by decide)

/-- C10: every get or put call ends with the shared lock released,
whether the transport returns a response (of any status) or raises,
because the release is in the finally block. -/
theorem c10_lock_released (d : Device) (a : String) (data : Params)
    (s : SeqState) (t : TransportResult) :
    (Device.get d a data s t).2.2.lockHeld = false
    ∧ (Device.put d a data s t).2.2.lockHeld = false := by
  cases t <;> exact ⟨rfl, rfl⟩

end Alpaca
